import Mathlib

/-!
Verification of mj41/ha-modbus-windows-shutter.

Shallow embedding of the relay-address mapping (`modbus_relay.py`), the
configuration validator (`config_loader.py`), the sequential shutter
controller (`custom_windows_shutter.py`), and the timeline compiler and
executor described by the specification (their Python implementation
`_generate_group_timeline` / `_execute_timeline` is exercised by
`test_shutter_controller.py` but is not among the provided source files,
so those two components are modelled from the specification).

Python integers are embedded as `Int` (with `Int.ediv`/`Int.emod`, which
agree with Python floor division and modulo for the positive divisor 8)
or as `Nat` where the source only handles non-negative values; float
delays in seconds are embedded exactly as integer milliseconds; bus I/O
is embedded as explicit call traces driven by an oracle `Nat → Bool`
giving the success of each successive bus operation.
-/

/-- Embedding of `ModbusRelayClient.relay_to_coil` (modbus_relay.py, lines
61-71): `relay_idx = relay_num - 1; 24 - (relay_idx // 8) * 8 + (relay_idx % 8)`.
Python `//` and `%` are floor division and modulo, which for the positive
divisor 8 coincide with `Int` division `/` (`Int.ediv`) and `%`
(`Int.emod`): for example `(-1) / 8 = -1` and `(-1) % 8 = 7` on both
sides. The source performs no range check on `relay_num`. -/
def relay_to_coil (relay_num : Int) : Int :=
  24 - ((relay_num - 1) / 8) * 8 + (relay_num - 1) % 8

/-- Embedding of the coil address computed by `ModbusRelayClient.write_relay`
(modbus_relay.py, lines 124-130): `coil = relay_num - 1`, with no use of
`relay_to_coil`. -/
def write_relay_coil (relay_num : Int) : Int := relay_num - 1

/-- Embedding of the coil array built by `ModbusRelayClient.write_relays`
(modbus_relay.py, lines 132-144): `coil_values = [False]*32`, then for each
`relay_state_idx`, `coil_values[relay_to_coil(relay_state_idx + 1)] = value`. -/
def write_relays_coil_values (values : List Bool) : List Bool :=
  (List.range values.length).foldl
    (fun coil_values (relay_state_idx : Nat) =>
      coil_values.set (relay_to_coil (Int.ofNat relay_state_idx + 1)).toNat
        (values.getD relay_state_idx false))
    (List.replicate 32 false)

/-- The 32-element logical relay-state list that energizes exactly logical
relay `r`: index `relay_num - 1` is true for `relay_num = r` (the indexing
convention documented in `write_relays`). -/
def oneHot (r : Nat) : List Bool :=
  (List.range 32).map (fun i => i + 1 == r)

namespace Spec

/-- Modelled from the spec: `RelayStep` of section 3 (the Python
implementation `_generate_group_timeline` of the timeline compiler is
exercised by `test_shutter_controller.py` but is not among the provided
source files). All times are integer milliseconds. -/
structure RelayStep where
  relay_num : Nat
  duration_ms : Nat
deriving DecidableEq, Repr

/-- Modelled from the spec: an `ActionSequence` is an ordered list of
`RelayStep` for one actuator and action. -/
abbrev ActionSequence := List RelayStep

/-- Modelled from the spec: a compiler-internal `Interval`
`(start_ms, end_ms, relay_number)` derived from a `RelayStep` at the
actuator's own local offset. -/
structure Interval where
  start_ms : Nat
  end_ms : Nat
  relay_num : Nat
deriving DecidableEq, Repr

/-- Modelled from the spec: a `TimelineEvent` is either
`SetState(active relay set)` or `Delay(duration_ms)`. -/
inductive TimelineEvent where
  | setState (active : Finset Nat)
  | delay (duration_ms : Nat)
deriving DecidableEq

/-- Modelled from the spec: a `Timeline` is an ordered sequence of
`TimelineEvent`. -/
abbrev Timeline := List TimelineEvent

/-- Modelled from the spec, section 4.2 step 1: expand an
`ActionSequence` into `Interval`s using the actuator's own local running
offset starting at 0: step `i` occupies
`[offset_i, offset_i + duration_i)`. -/
def expandIntervals (seq : ActionSequence) : List Interval :=
  (seq.foldl
    (fun (acc : List Interval × Nat) step =>
      (acc.1 ++ [{ start_ms := acc.2, end_ms := acc.2 + step.duration_ms,
                   relay_num := step.relay_num }],
       acc.2 + step.duration_ms))
    ([], 0)).1

/-- Modelled from the spec: the total duration of one actuator's
`ActionSequence`. -/
def totalDuration (seq : ActionSequence) : Nat :=
  (seq.map (fun s => s.duration_ms)).sum

/-- Modelled from the spec: the horizon is the maximum total duration
across the compiled actuators. -/
def horizon (seqs : List ActionSequence) : Nat :=
  (seqs.map totalDuration).foldl max 0

/-- Modelled from the spec, section 4.2 step 2: the breakpoint set is the
union of all interval start and end times plus 0 and the horizon, sorted
ascending and deduplicated. -/
def breakpoints (ivs : List Interval) (h : Nat) : List Nat :=
  List.insertionSort (fun a b => a ≤ b)
    (((ivs.map Interval.start_ms) ++ (ivs.map Interval.end_ms) ++ [0, h]).dedup)

/-- Modelled from the spec, section 4.2 step 3: the active relay set at
time `t` under the half-open membership test `start ≤ t < end`. -/
def activeAt (ivs : List Interval) (t : Nat) : Finset Nat :=
  ((ivs.filter (fun iv => decide (iv.start_ms ≤ t ∧ t < iv.end_ms))).map
    Interval.relay_num).toFinset

/-- Modelled from the spec, section 4.2 step 4: merging into the previous
`Delay` extends the duration of the last emitted delay event. -/
def extendLastDelay (tl : Timeline) (dt : Nat) : Timeline :=
  match tl.getLast? with
  | some (TimelineEvent.delay d) => tl.dropLast ++ [TimelineEvent.delay (d + dt)]
  | _ => tl ++ [TimelineEvent.delay dt]

/-- Modelled from the spec, section 4.2 step 4: walk consecutive
breakpoint pairs; for a positive gap emit `SetState` then `Delay` when the
active set differs from the most recently emitted state, otherwise merge
into the previous `Delay`. Returns the timeline and the most recently
emitted state. -/
def sweepPairs (ivs : List Interval) (pairs : List (Nat × Nat)) :
    Timeline × Option (Finset Nat) :=
  pairs.foldl
    (fun st p =>
      let dt := p.2 - p.1
      if dt = 0 then st
      else
        let act := activeAt ivs p.1
        if st.2 = some act then (extendLastDelay st.1 dt, st.2)
        else (st.1 ++ [TimelineEvent.setState act, TimelineEvent.delay dt],
              some act))
    (([], none) : Timeline × Option (Finset Nat))

/-- Modelled from the spec, section 4.2 step 5: on a non-empty timeline,
append the residual `Delay` when the horizon exceeds the last breakpoint
reached, then a terminal `SetState(empty)` when the last emitted state is
not already the empty set. -/
def addTerminal (tl : Timeline) (lastState : Option (Finset Nat)) (h : Nat)
    (lastBp : Nat) : Timeline :=
  if tl.isEmpty then tl
  else
    let tl1 := if lastBp < h then tl ++ [TimelineEvent.delay (h - lastBp)] else tl
    if lastState = some ∅ then tl1 else tl1 ++ [TimelineEvent.setState ∅]

/-- Modelled from the spec, section 4.2 step 6: drop any zero-length
`Delay`; if the sequence would begin with `Delay`, prepend a `SetState`
reflecting the state at time 0. -/
def postProcess (ivs : List Interval) (tl : Timeline) : Timeline :=
  let tl1 := tl.filter (fun e => decide (e ≠ TimelineEvent.delay 0))
  match tl1 with
  | TimelineEvent.delay _ :: _ => TimelineEvent.setState (activeAt ivs 0) :: tl1
  | _ => tl1

/-- Modelled from the spec, section 4.2: the timeline compiler
(`_generate_group_timeline` in the repository, absent from the provided
sources). Actuators with an empty `ActionSequence` are excluded; the
remaining sequences are expanded into intervals from the common start
time 0, swept over the breakpoint set, and post-processed. -/
def compile (seqs : List ActionSequence) : Timeline :=
  let compiled := seqs.filter (fun s => !s.isEmpty)
  let ivs := compiled.foldr (fun s acc => expandIntervals s ++ acc) []
  let h := horizon compiled
  let bps := breakpoints ivs h
  let sw := sweepPairs ivs (bps.zip bps.tail)
  postProcess ivs (addTerminal sw.1 sw.2 h (bps.getLast?.getD 0))

/-- Modelled from the spec, section 4.3: one observable step of the
timeline executor against the relay-bus client: an all-off reset, an
atomic write of all 32 physical outputs, or a wait of the given
milliseconds. -/
inductive BusCall where
  | reset
  | writeAll (bits : List Bool)
  | wait (ms : Nat)
deriving DecidableEq

/-- Modelled from the spec, section 4.3: `SetState(s)` maps every element
of `s` through the relay address mapper and issues one write with exactly
those physical bits set and all others clear. -/
def stateToPhysical (s : Finset Nat) : List Bool :=
  (List.range 32).map
    (fun pos => decide (∃ r ∈ s, (relay_to_coil (Int.ofNat r)).toNat = pos))

/-- Modelled from the spec, section 4.3: the bus call an event maps to,
one `writeAll` per `SetState` and one `wait` per `Delay`. -/
def evCall : TimelineEvent → BusCall
  | TimelineEvent.setState s => BusCall.writeAll (stateToPhysical s)
  | TimelineEvent.delay d => BusCall.wait d

/-- Modelled from the spec, section 4.3: consume events strictly in
order; a bus-level failure (the oracle answering false for that bus-call
index) aborts the remaining events immediately. Waits are not bus
operations and always succeed. Returns the calls attempted, the next
bus-call index, and the index of the first failed call, if any. -/
def execEvents (oracle : Nat → Bool) : Timeline → Nat →
    List BusCall × Nat × Option Nat
  | [], k => ([], k, none)
  | TimelineEvent.setState s :: rest, k =>
    if oracle k = true then
      let r := execEvents oracle rest (k + 1)
      (BusCall.writeAll (stateToPhysical s) :: r.1, r.2)
    else ([BusCall.writeAll (stateToPhysical s)], k + 1, some k)
  | TimelineEvent.delay d :: rest, k =>
    let r := execEvents oracle rest k
    (BusCall.wait d :: r.1, r.2)

/-- Modelled from the spec, section 4.3: the outcome of one execution:
the full trace of attempted calls, the original error (the first bus
failure during the initial reset or the events), the bus-call index of
the final safety reset, and whether that final reset itself failed —
reported separately so that it never replaces the original error. -/
structure ExecResult where
  trace : List BusCall
  origError : Option Nat
  finalIdx : Nat
  finalResetFailed : Bool
deriving DecidableEq

/-- Modelled from the spec, section 4.3: the timeline executor
(`_execute_timeline` in the repository, absent from the provided
sources). It unconditionally issues an initial all-off reset, consumes
the events in order until a bus failure, and attempts a final safety
reset on every exit route. -/
def executeTimeline (oracle : Nat → Bool) (tl : Timeline) : ExecResult :=
  if oracle 0 = true then
    let r := execEvents oracle tl 1
    { trace := BusCall.reset :: r.1 ++ [BusCall.reset]
      origError := r.2.2
      finalIdx := r.2.1
      finalResetFailed := !oracle r.2.1 }
  else
    { trace := [BusCall.reset, BusCall.reset]
      origError := some 0
      finalIdx := 1
      finalResetFailed := !oracle 1 }

/-- Modelled from the spec, section 4.3: the error the executor surfaces
to its caller: the original error when there is one — a final-reset
failure is reported through `finalResetFailed` but never masks it —
otherwise the final-reset failure itself, if any. -/
def reportedError (r : ExecResult) : Option Nat :=
  match r.origError with
  | some i => some i
  | none => if r.finalResetFailed then some r.finalIdx else none

end Spec

/-- Concrete oracle for the witness: only the very first bus call (the
initial reset) succeeds; the first write and the final reset both fail. -/
def oracleFailAfterInit : Nat → Bool := fun k => k == 0

/-- Concrete timeline for the witness. -/
def witnessTimeline : Spec.Timeline :=
  [Spec.TimelineEvent.setState {1}, Spec.TimelineEvent.delay 1000,
   Spec.TimelineEvent.setState ∅]

namespace Src

/-- Embedding of a step of a `relay_seq` in custom_windows_shutter.py:
`{relay_num, delay}`. The Python delay is a float in seconds; it is
embedded exactly as integer milliseconds (the very conversion
`delay_ms = int(delay * 1000)` that `ConfigLoader.load_and_validate_configs`
of config_loader.py performs, exact for every delay in the repository). -/
structure PStep where
  relay_num : Nat
  delay_ms : Nat
deriving DecidableEq

/-- Observable calls of the sequential controller in
custom_windows_shutter.py: bus operations of `ModbusRelayClient`
(`reset_relays`, `write_relay`, `read_relay_states`,
`read_device_address`) and `sleep` suspensions, in milliseconds. -/
inductive SrcCall where
  | reset
  | writeRelay (relay_num : Nat) (value : Bool)
  | readStates
  | readDeviceAddress
  | sleepMs (ms : Nat)
deriving DecidableEq

/-- Outcome of a controller method: the returned boolean, or `crashed`
when an exception escapes the method (a `ModbusRelayError` raised by the
safety reset inside an `except` block propagates uncaught). -/
inductive SOutcome where
  | ok
  | failed
  | crashed
deriving DecidableEq

/-- Embedding of the step loop inside
`ShutterController.execute_relay_sequence` (custom_windows_shutter.py,
lines 210-240): per step, `write_relay(relay_num, True)`,
`read_relay_states()`, `sleep(delay)`, `reset_relays()`, `sleep(0.1)`
(100 ms).
The oracle gives the success of each successive bus call; a failing bus
call raises `ModbusRelayError` (via the `handle_modbus_exception`
decorator), ending the loop. Returns the calls made, the next bus-call
index, and whether an exception was raised. -/
def stepsLoop (oracle : Nat → Bool) : List PStep → Nat →
    List SrcCall × Nat × Bool
  | [], k => ([], k, false)
  | step :: rest, k =>
    if oracle k = false then
      ([SrcCall.writeRelay step.relay_num true], k + 1, true)
    else if oracle (k + 1) = false then
      ([SrcCall.writeRelay step.relay_num true, SrcCall.readStates], k + 2, true)
    else if oracle (k + 2) = false then
      ([SrcCall.writeRelay step.relay_num true, SrcCall.readStates,
        SrcCall.sleepMs step.delay_ms, SrcCall.reset], k + 3, true)
    else
      let r := stepsLoop oracle rest (k + 3)
      (SrcCall.writeRelay step.relay_num true :: SrcCall.readStates ::
        SrcCall.sleepMs step.delay_ms :: SrcCall.reset ::
        SrcCall.sleepMs 100 :: r.1, r.2)

/-- Embedding of `ShutterController.execute_relay_sequence`
(custom_windows_shutter.py, lines 197-257): initial `reset_relays()` and
`sleep(0.1)`, then the step loop; on a raised `ModbusRelayError` the
`except` block sets success to False and attempts one more safety
`reset_relays()` (whose own failure would propagate out: `crashed`). The
connection is assumed established, as in the tests. -/
def execute_relay_sequence (oracle : Nat → Bool) (relay_seq : List PStep)
    (k : Nat) : List SrcCall × Nat × SOutcome :=
  if oracle k = false then
    ([SrcCall.reset, SrcCall.reset], k + 2,
     if oracle (k + 1) = true then SOutcome.failed else SOutcome.crashed)
  else
    let body := stepsLoop oracle relay_seq (k + 1)
    if body.2.2 = true then
      (SrcCall.reset :: SrcCall.sleepMs 100 :: body.1 ++ [SrcCall.reset],
       body.2.1 + 1,
       if oracle body.2.1 = true then SOutcome.failed else SOutcome.crashed)
    else
      (SrcCall.reset :: SrcCall.sleepMs 100 :: body.1, body.2.1, SOutcome.ok)

/-- Embedding of `ShutterController.control_shutter`
(custom_windows_shutter.py, lines 260-278): unknown shutter or action
returns False with no bus I/O; an empty (or missing) `relay_seq` returns
True with no bus I/O; otherwise the relay sequence is executed.
Configurations are embedded as association lists in declaration order,
looked up by key like the Python dicts. -/
def control_shutter (oracle : Nat → Bool)
    (shutters : List (String × List (String × List PStep)))
    (shutter_name action : String) (k : Nat) : List SrcCall × Nat × SOutcome :=
  match shutters.lookup shutter_name with
  | none => ([], k, SOutcome.failed)
  | some actions =>
    match actions.lookup action with
    | none => ([], k, SOutcome.failed)
    | some relay_seq =>
      if relay_seq.isEmpty then ([], k, SOutcome.ok)
      else execute_relay_sequence oracle relay_seq k

/-- Embedding of the member loop of `ShutterController.control_group`
(custom_windows_shutter.py, lines 293-306): a member without the action
logs, sets `overall_success = False` and `continue`s (skipping the
500 ms sleep); otherwise `control_shutter` runs, a False return sets
`overall_success = False`, and `sleep(0.5)` (500 ms) follows. The
accumulator is
the running `overall_success` flag. -/
def groupLoop (oracle : Nat → Bool)
    (shutters : List (String × List (String × List PStep)))
    (action : String) : List String → Nat → Bool →
    List SrcCall × Nat × SOutcome
  | [], k, acc => ([], k, if acc then SOutcome.ok else SOutcome.failed)
  | shutter_name :: rest, k, acc =>
    match (shutters.lookup shutter_name).bind
        (fun actions => actions.lookup action) with
    | none => groupLoop oracle shutters action rest k false
    | some _ =>
      let r := control_shutter oracle shutters shutter_name action k
      match r.2.2 with
      | SOutcome.crashed => (r.1, r.2.1, SOutcome.crashed)
      | SOutcome.ok =>
        let rest1 := groupLoop oracle shutters action rest r.2.1 acc
        (r.1 ++ SrcCall.sleepMs 500 :: rest1.1, rest1.2)
      | SOutcome.failed =>
        let rest1 := groupLoop oracle shutters action rest r.2.1 false
        (r.1 ++ SrcCall.sleepMs 500 :: rest1.1, rest1.2)

/-- Embedding of `ShutterController.control_group`
(custom_windows_shutter.py, lines 280-313): unknown group returns False;
an empty group returns True with no bus I/O; otherwise the members are
controlled sequentially, one after another, via `control_shutter`. -/
def control_group (oracle : Nat → Bool)
    (shutters : List (String × List (String × List PStep)))
    (groups : List (String × List String)) (group_name action : String)
    (k : Nat) : List SrcCall × Nat × SOutcome :=
  match groups.lookup group_name with
  | none => ([], k, SOutcome.failed)
  | some group_shutters =>
    if group_shutters.isEmpty then ([], k, SOutcome.ok)
    else groupLoop oracle shutters action group_shutters k true

/-- Embedding of `ShutterController.check_device_address`
(custom_windows_shutter.py, lines 316-333): one `read_device_address`
bus call; returns False when it fails. -/
def check_device_address (oracle : Nat → Bool) (k : Nat) :
    List SrcCall × Nat × Bool :=
  ([SrcCall.readDeviceAddress], k + 1, oracle k)

/-- Embedding of `ShutterController.handle_action`
(custom_windows_shutter.py, lines 354-368): `check_device_address` runs
first; on success the target is resolved as a shutter, then as a group,
and an unknown target is an error returning False. -/
def handle_action (oracle : Nat → Bool)
    (shutters : List (String × List (String × List PStep)))
    (groups : List (String × List String)) (action target : String)
    (k : Nat) : List SrcCall × Nat × SOutcome :=
  let c := check_device_address oracle k
  if c.2.2 = false then (c.1, c.2.1, SOutcome.failed)
  else if (shutters.lookup target).isSome then
    let r := control_shutter oracle shutters target action c.2.1
    (c.1 ++ r.1, r.2)
  else if (groups.lookup target).isSome then
    let r := control_group oracle shutters groups target action c.2.1
    (c.1 ++ r.1, r.2)
  else (c.1, c.2.1, SOutcome.failed)

/-- The `SAMPLE_SHUTTERS_RAW` configuration of
test_shutter_controller.py, delays in milliseconds (its
`SAMPLE_SHUTTERS` variant). -/
def sampleShutters : List (String × List (String × List PStep)) :=
  [("shutter1", [("up", [⟨1, 1000⟩]), ("down", [⟨2, 2000⟩])]),
   ("shutter2", [("up", [⟨3, 500⟩, ⟨4, 700⟩]), ("down", [])]),
   ("shutter3", [("down", [⟨5, 2000⟩])])]

/-- The `SAMPLE_GROUPS` configuration of test_shutter_controller.py. -/
def sampleGroups : List (String × List String) :=
  [("group1", ["shutter1", "shutter2"]),
   ("group2", ["shutter1", "shutter3"]),
   ("empty_group", []),
   ("missing_shutter_group", ["shutter1", "nonexistent"])]

/-- A bus on which every call succeeds. -/
def allOk : Nat → Bool := fun _ => true


/-- Embedding of a Python value appearing as a group entry in the
`shutter_groups` configuration: either a list of shutter names or a value
of some other type (the `isinstance(shutter_list, list)` check of the
validator). -/
inductive GroupVal where
  | names (shutter_list : List String)
  | nonList
deriving DecidableEq

/-- Embedding of the inner member loop of
`ConfigLoader.validate_group_config` (config_loader.py, lines 115-117):
raise `ValueError` on the first member shutter not defined in the
shutters configuration (`if shutter not in shutters`). -/
def checkMembers (group_name : String) (shutter_list shutters : List String) :
    Except String Unit :=
  match shutter_list with
  | [] => Except.ok ()
  | shutter :: rest =>
    if shutter ∈ shutters then checkMembers group_name rest shutters
    else Except.error ("Invalid group " ++ group_name ++ ": shutter " ++
      shutter ++ " not defined.")

/-- Embedding of `ConfigLoader.validate_group_config` (config_loader.py,
lines 107-117, identical to custom_windows_shutter.py lines 116-126):
iterate the groups in order; a non-list value raises `ValueError`; an
empty list is only warned about and skipped; a member not defined among
the shutters raises `ValueError`. A raise is embedded as
`Except.error`. -/
def validate_group_config (groups : List (String × GroupVal))
    (shutters : List String) : Except String Unit :=
  match groups with
  | [] => Except.ok ()
  | (group_name, GroupVal.nonList) :: _ =>
    Except.error ("Invalid group " ++ group_name ++
      ": expected a list of shutter names.")
  | (group_name, GroupVal.names shutter_list) :: rest =>
    match checkMembers group_name shutter_list shutters with
    | Except.ok _ => validate_group_config rest shutters
    | Except.error e => Except.error e

end Src

example : ((-1 : Int) / 8) = -1 ∧ ((-1 : Int) % 8) = 7 := by decide

example : relay_to_coil 1 = 24 := by decide
example : relay_to_coil 25 = 0 := by decide
example : relay_to_coil 9 = 16 := by decide

example : Spec.compile [] = [] := by decide

example :
    Spec.compile [[⟨1, 1000⟩]] =
      [Spec.TimelineEvent.setState {1}, Spec.TimelineEvent.delay 1000,
       Spec.TimelineEvent.setState ∅] := by
  decide

example :
    Spec.compile [[⟨3, 500⟩, ⟨4, 700⟩]] =
      [Spec.TimelineEvent.setState {3}, Spec.TimelineEvent.delay 500,
       Spec.TimelineEvent.setState {4}, Spec.TimelineEvent.delay 700,
       Spec.TimelineEvent.setState ∅] := by
  decide

/-- C5: for every relay_number in [1,32] the mapping lands in [0,31], and
viewed as the 0-based map `idx ↦ relay_to_coil (idx + 1)` it is an
involution: `relay_to_coil (relay_to_coil n + 1) = n - 1`, hence a
self-inverse bijection between logical relay numbers 1..32 and bit
positions 0..31. -/
theorem relay_to_coil_involution (n : Int) (h1 : 1 ≤ n) (h2 : n ≤ 32) :
    0 ≤ relay_to_coil n ∧ relay_to_coil n ≤ 31 ∧
    relay_to_coil (relay_to_coil n + 1) = n - 1 := by
  unfold relay_to_coil
  omega

/-- Witness for `relay_to_coil_involution` at relay number 1. -/
theorem relay_to_coil_involution_witness :
    0 ≤ relay_to_coil 1 ∧ relay_to_coil 1 ≤ 31 ∧
    relay_to_coil (relay_to_coil 1 + 1) = 1 - 1 :=
  relay_to_coil_involution 1 (by decide) (by decide)

/-- C6 counterexample: the input 0 lies outside [1,32], yet `relay_to_coil`
does not fail fast: it silently returns the value 39, which is not even a
valid bit position. The source function has no error path at all. -/
theorem relay_to_coil_no_fail_fast_counterexample :
    relay_to_coil 0 = 39 ∧ ¬ (1 ≤ (0 : Int) ∧ (0 : Int) ≤ 32) ∧
    ¬ (0 ≤ relay_to_coil 0 ∧ relay_to_coil 0 ≤ 31) := by
  decide

/-- C6 amended: `relay_to_coil` performs no input validation and never
raises; it applies its arithmetic formula to any integer input. It still
never silently clamps: every input outside [1,32] yields a value outside
the valid bit-position range [0,31]. -/
theorem relay_to_coil_out_of_range_not_clamped (n : Int)
    (h : n < 1 ∨ 32 < n) :
    relay_to_coil n < 0 ∨ 31 < relay_to_coil n := by
  unfold relay_to_coil
  omega

/-- Witness for `relay_to_coil_out_of_range_not_clamped` at input 0. -/
theorem relay_to_coil_out_of_range_not_clamped_witness :
    relay_to_coil 0 < 0 ∨ 31 < relay_to_coil 0 :=
  relay_to_coil_out_of_range_not_clamped 0 (Or.inl (by decide))

/-- C10 finite check over all 32 logical relay numbers, proved by
evaluation: `write_relay` addresses coil `relay_num - 1`, which is never
the coil `relay_to_coil relay_num` addressed by `write_relays`, and the
coil array built by `write_relays` for the one-hot state of relay `r` is
true exactly at the mapped position and false at `write_relay`'s one. -/
lemma write_relay_coil_mismatch_ball :
    ∀ r < 33, 1 ≤ r →
      (write_relay_coil (Int.ofNat r) ≠ relay_to_coil (Int.ofNat r) ∧
       (write_relays_coil_values (oneHot r)).getD
         (relay_to_coil (Int.ofNat r)).toNat false = true ∧
       (write_relays_coil_values (oneHot r)).getD
         (write_relay_coil (Int.ofNat r)).toNat false = false) := by
  decide

/-- C10: for every relay_num in [1,32], `write_relay` addresses coil
`relay_num - 1` without the relay-to-coil mapping, this coil never equals
`relay_to_coil relay_num`, and consequently energizing relay `r` via
`write_relays` sets a different physical coil than `write_relay` does:
the coil array for the one-hot state of `r` is true at
`relay_to_coil r` and false at `write_relay`'s coil `r - 1`. -/
theorem write_relay_vs_write_relays_coils (r : Nat) (h1 : 1 ≤ r)
    (h2 : r ≤ 32) :
    write_relay_coil (Int.ofNat r) ≠ relay_to_coil (Int.ofNat r) ∧
    (write_relays_coil_values (oneHot r)).getD
      (relay_to_coil (Int.ofNat r)).toNat false = true ∧
    (write_relays_coil_values (oneHot r)).getD
      (write_relay_coil (Int.ofNat r)).toNat false = false :=
  write_relay_coil_mismatch_ball r (by omega) h1

/-- Witness for `write_relay_vs_write_relays_coils` at relay number 1. -/
theorem write_relay_vs_write_relays_coils_witness :
    write_relay_coil (Int.ofNat 1) ≠ relay_to_coil (Int.ofNat 1) ∧
    (write_relays_coil_values (oneHot 1)).getD
      (relay_to_coil (Int.ofNat 1)).toNat false = true ∧
    (write_relays_coil_values (oneHot 1)).getD
      (write_relay_coil (Int.ofNat 1)).toNat false = false :=
  write_relay_vs_write_relays_coils 1 (by decide) (by decide)

/-- C1: compiling the two concurrent actuators `[(1,1000)]` and
`[(3,500),(4,700)]` yields the single merged schedule
`[SetState({1,3}), Delay(500), SetState({1,4}), Delay(500), SetState({4}),
Delay(200), SetState(empty)]` over the 1200 ms horizon, with the two
actuators' relay activity overlapping (matching
`EXPECTED_TIMELINES['group1-up']` of test_shutter_controller.py). -/
theorem compile_group1_up_merged_timeline :
    Spec.compile [[⟨1, 1000⟩], [⟨3, 500⟩, ⟨4, 700⟩]] =
      [Spec.TimelineEvent.setState {1, 3}, Spec.TimelineEvent.delay 500,
       Spec.TimelineEvent.setState {1, 4}, Spec.TimelineEvent.delay 500,
       Spec.TimelineEvent.setState {4}, Spec.TimelineEvent.delay 200,
       Spec.TimelineEvent.setState ∅] := by
  decide

/-- When no bus call fails during the events, the attempted calls are
exactly one call per event, in order. -/
lemma Spec.execEvents_ok_trace (oracle : Nat → Bool) (tl : Timeline) (k : Nat)
    (h : (execEvents oracle tl k).2.2 = none) :
    (execEvents oracle tl k).1 = tl.map evCall := by
  induction tl generalizing k with
  | nil => simp [execEvents]
  | cons e rest ih =>
    cases e with
    | setState s =>
      by_cases hk : oracle k = true
      · simp only [execEvents, if_pos hk] at h ⊢
        simp [evCall, ih (k + 1) h]
      · simp only [execEvents, if_neg hk] at h
        exact Option.noConfusion h
    | delay d =>
      simp only [execEvents] at h ⊢
      simp [evCall, ih k h]

/-- C2: for every timeline and every bus behaviour, the executor's
bus-call sequence starts with the initial all-off reset and ends with the
final all-off reset (so the final reset is attempted even when a bus
error occurs mid-sequence); when no bus error occurs the sequence is
exactly the initial reset, then in order one all-outputs write per
SetState event and one wait per Delay event, then the final reset; and
when the original error is at call `i`, the surfaced error is still `i`
— a failure of the final reset is reported through `finalResetFailed`
but never replaces or suppresses the original error. -/
theorem executeTimeline_bus_call_sequence (tl : Spec.Timeline)
    (oracle : Nat → Bool) :
    (Spec.executeTimeline oracle tl).trace.head? = some Spec.BusCall.reset ∧
    (Spec.executeTimeline oracle tl).trace.getLast? = some Spec.BusCall.reset ∧
    ((Spec.executeTimeline oracle tl).origError = none →
      (Spec.executeTimeline oracle tl).trace =
        Spec.BusCall.reset :: tl.map Spec.evCall ++ [Spec.BusCall.reset]) ∧
    (∀ i, (Spec.executeTimeline oracle tl).origError = some i →
      Spec.reportedError (Spec.executeTimeline oracle tl) = some i) := by
  by_cases h0 : oracle 0 = true
  · simp only [Spec.executeTimeline, if_pos h0]
    refine ⟨rfl, ?_, ?_, ?_⟩
    · exact List.getLast?_concat _
    · intro h
      rw [Spec.execEvents_ok_trace oracle tl 1 h]
    · intro i h
      simp [Spec.reportedError, h]
  · simp only [Spec.executeTimeline, if_neg h0]
    refine ⟨rfl, rfl, ?_, ?_⟩
    · intro h
      simp at h
    · intro i h
      simp only [Option.some.injEq] at h
      simp [Spec.reportedError, ← h]

/-- Witness for `executeTimeline_bus_call_sequence`: with a mid-sequence
bus error at call 1 and a failing final reset, the trace still starts and
ends with a reset, the final-reset failure is reported, and the surfaced
error is still the original call 1. -/
theorem executeTimeline_bus_call_sequence_witness :
    (Spec.executeTimeline oracleFailAfterInit witnessTimeline).trace.head? =
      some Spec.BusCall.reset ∧
    (Spec.executeTimeline oracleFailAfterInit witnessTimeline).trace.getLast? =
      some Spec.BusCall.reset ∧
    (Spec.executeTimeline oracleFailAfterInit witnessTimeline).finalResetFailed =
      true ∧
    Spec.reportedError (Spec.executeTimeline oracleFailAfterInit witnessTimeline) =
      some 1 := by
  have h := executeTimeline_bus_call_sequence witnessTimeline oracleFailAfterInit
  exact ⟨h.1, h.2.1, by decide, h.2.2.2 1 (by decide)⟩

/-- C3 evaluation at the failing input: with a fully working bus,
`control_group` on group1 (members shutter1 `[(1, 1000 ms)]` and shutter2
`[(3, 500 ms), (4, 700 ms)]`) for action up executes the members strictly
one after another: the whole sequence of shutter1, a 500 ms pause, then
the sequence of shutter2, each `write_relay` energizing a single relay with resets
between steps, with no merged schedule and no instant at which relays of
both members are energized together, contradicting the concurrent
compile/execute the claim describes. -/
theorem control_group_group1_sequential :
    Src.control_group Src.allOk Src.sampleShutters Src.sampleGroups
      "group1" "up" 0 =
      ([Src.SrcCall.reset, Src.SrcCall.sleepMs 100,
        Src.SrcCall.writeRelay 1 true, Src.SrcCall.readStates,
        Src.SrcCall.sleepMs 1000, Src.SrcCall.reset,
        Src.SrcCall.sleepMs 100, Src.SrcCall.sleepMs 500,
        Src.SrcCall.reset, Src.SrcCall.sleepMs 100,
        Src.SrcCall.writeRelay 3 true, Src.SrcCall.readStates,
        Src.SrcCall.sleepMs 500, Src.SrcCall.reset,
        Src.SrcCall.sleepMs 100, Src.SrcCall.writeRelay 4 true,
        Src.SrcCall.readStates, Src.SrcCall.sleepMs 700,
        Src.SrcCall.reset, Src.SrcCall.sleepMs 100,
        Src.SrcCall.sleepMs 500], 11, Src.SOutcome.ok) := by
  decide

/-- C4 evaluation at the failing input: with a fully working bus — no
bus-level error anywhere — `control_group` on group2 (members shutter1
and shutter3) for action up skips shutter3, which does not define up,
and nevertheless returns failure, while the surviving member shutter1
executes normally. -/
theorem control_group_group2_missing_action_fails :
    Src.control_group Src.allOk Src.sampleShutters Src.sampleGroups
      "group2" "up" 0 =
      ([Src.SrcCall.reset, Src.SrcCall.sleepMs 100,
        Src.SrcCall.writeRelay 1 true, Src.SrcCall.readStates,
        Src.SrcCall.sleepMs 1000, Src.SrcCall.reset,
        Src.SrcCall.sleepMs 100, Src.SrcCall.sleepMs 500],
       4, Src.SOutcome.failed) ∧
    (∀ n : Nat, Src.allOk n = true) := by
  exact ⟨by decide, fun _ => rfl⟩

/-- C7 counterexample: for the unknown target "nope" (neither a shutter
nor a group of the sample configuration), `handle_action` does return
failure, but its bus trace is not empty: the device-address check issues
a `read_device_address` bus call before the target is resolved, so bus
I/O is attempted. -/
theorem handle_action_unknown_target_counterexample :
    Src.handle_action Src.allOk Src.sampleShutters Src.sampleGroups
      "up" "nope" 0 =
      ([Src.SrcCall.readDeviceAddress], 1, Src.SOutcome.failed) ∧
    ([Src.SrcCall.readDeviceAddress] : List Src.SrcCall) ≠ [] := by
  exact ⟨by decide, by decide⟩

/-- C7 amended: for every target that is neither a known shutter nor a
known group, `handle_action` reports an error and returns failure, and
the only bus I/O attempted is the device-address check read that
precedes target resolution — no relay write and no reset occurs, so
there are no side effects on the relay board. -/
theorem handle_action_unknown_target_no_relay_io (oracle : Nat → Bool)
    (shutters : List (String × List (String × List Src.PStep)))
    (groups : List (String × List String)) (action target : String) (k : Nat)
    (h1 : shutters.lookup target = none) (h2 : groups.lookup target = none) :
    (Src.handle_action oracle shutters groups action target k).2.2 =
      Src.SOutcome.failed ∧
    ∀ c ∈ (Src.handle_action oracle shutters groups action target k).1,
      c = Src.SrcCall.readDeviceAddress := by
  unfold Src.handle_action Src.check_device_address
  simp only [h1, h2, Option.isSome_none, Bool.false_eq_true, if_false]
  by_cases hk : oracle k = false
  · simp [hk]
  · simp [hk]

/-- Witness for `handle_action_unknown_target_no_relay_io` at the sample
configuration and target "nope". -/
theorem handle_action_unknown_target_no_relay_io_witness :
    (Src.handle_action Src.allOk Src.sampleShutters Src.sampleGroups
      "up" "nope" 0).2.2 = Src.SOutcome.failed ∧
    ∀ c ∈ (Src.handle_action Src.allOk Src.sampleShutters Src.sampleGroups
      "up" "nope" 0).1, c = Src.SrcCall.readDeviceAddress :=
  handle_action_unknown_target_no_relay_io Src.allOk Src.sampleShutters
    Src.sampleGroups "up" "nope" 0 (by decide) (by decide)

/-- C8: for every shutter whose configured action has an empty relay
sequence, `control_shutter` returns True and performs no bus I/O at all
(no relay writes): an empty sequence is valid and means no motion. -/
theorem control_shutter_empty_sequence_success (oracle : Nat → Bool)
    (shutters : List (String × List (String × List Src.PStep)))
    (shutter_name action : String) (k : Nat)
    (actions : List (String × List Src.PStep))
    (h1 : shutters.lookup shutter_name = some actions)
    (h2 : actions.lookup action = some []) :
    Src.control_shutter oracle shutters shutter_name action k =
      ([], k, Src.SOutcome.ok) := by
  simp [Src.control_shutter, h1, h2]

/-- Witness for `control_shutter_empty_sequence_success`: shutter2 of the
sample configuration has an empty sequence for down. -/
theorem control_shutter_empty_sequence_success_witness :
    Src.control_shutter Src.allOk Src.sampleShutters "shutter2" "down" 0 =
      ([], 0, Src.SOutcome.ok) :=
  control_shutter_empty_sequence_success Src.allOk Src.sampleShutters
    "shutter2" "down" 0
    [("up", [⟨3, 500⟩, ⟨4, 700⟩]), ("down", [])] (by decide) (by decide)

/-- `checkMembers` errors exactly when some member is undefined. -/
lemma Src.checkMembers_error_iff (group_name : String)
    (shutter_list shutters : List String) :
    (∃ e, checkMembers group_name shutter_list shutters = Except.error e) ↔
    ∃ shutter ∈ shutter_list, shutter ∉ shutters := by
  induction shutter_list with
  | nil => simp [checkMembers]
  | cons s rest ih =>
    by_cases hs : s ∈ shutters
    · simp [checkMembers, hs, ih]
    · simp [checkMembers, hs]

/-- C9: `validate_group_config` raises `ValueError` (returns an error) if
and only if some group value is not a list or some group lists a shutter
name not present in the shutters configuration; in particular a group
with an empty member list is accepted (only warned about, making no
difference to the result), and a group referencing an undefined actuator
is rejected at validation. -/
theorem validate_group_config_error_iff (groups : List (String × Src.GroupVal))
    (shutters : List String) :
    ((∃ e, Src.validate_group_config groups shutters = Except.error e) ↔
      ∃ p ∈ groups, p.2 = Src.GroupVal.nonList ∨
        ∃ shutter_list, p.2 = Src.GroupVal.names shutter_list ∧
          ∃ shutter ∈ shutter_list, shutter ∉ shutters) ∧
    ∀ group_name,
      Src.validate_group_config ((group_name, Src.GroupVal.names []) :: groups)
        shutters = Src.validate_group_config groups shutters := by
  refine ⟨?_, fun _ => rfl⟩
  induction groups with
  | nil => simp [Src.validate_group_config]
  | cons p rest ih =>
    obtain ⟨gname, v⟩ := p
    cases v with
    | nonList =>
      simp only [Src.validate_group_config, List.mem_cons]
      constructor
      · intro _
        exact ⟨(gname, Src.GroupVal.nonList), Or.inl rfl, Or.inl rfl⟩
      · intro _
        exact ⟨_, rfl⟩
    | names sl =>
      cases hm : Src.checkMembers gname sl shutters with
      | ok u =>
        have hno : ¬ ∃ s ∈ sl, s ∉ shutters := by
          rw [← Src.checkMembers_error_iff gname sl shutters]
          rintro ⟨e, he⟩
          rw [hm] at he
          exact Except.noConfusion he
        simp only [Src.validate_group_config, hm, List.mem_cons]
        rw [ih]
        constructor
        · rintro ⟨q, hq, h⟩
          exact ⟨q, Or.inr hq, h⟩
        · rintro ⟨q, hq | hq, h⟩
          · subst hq
            rcases h with h | ⟨l, hl, h⟩
            · exact Src.GroupVal.noConfusion h
            · injection hl with hl2
              subst hl2
              exact absurd h hno
          · exact ⟨q, hq, h⟩
      | error e =>
        have hyes : ∃ s ∈ sl, s ∉ shutters := by
          rw [← Src.checkMembers_error_iff gname sl shutters]
          exact ⟨e, hm⟩
        simp only [Src.validate_group_config, hm, List.mem_cons]
        constructor
        · intro _
          exact ⟨(gname, Src.GroupVal.names sl), Or.inl rfl,
            Or.inr ⟨sl, rfl, hyes⟩⟩
        · intro _
          exact ⟨e, rfl⟩
